import Mathlib

/-!
Verification development for the turbo parallel registry scraper
(`turbo_parser.py`).  The Python source is shallowly embedded: the SQLite
tables become lists of row structures, `INSERT OR REPLACE` becomes an
explicit delete-conflicting-then-append operation, the shared statistics
object becomes an explicit state record threaded through the functions,
and the two-thread race on the deduplication set is modelled as a
small-step interleaving machine whose atomic steps are the individual
Python statements (membership check, set insert, locked counter
increment).  Timestamps are abstract `Nat` clock values supplied by the
caller; SQLite's `CURRENT_TIMESTAMP` default and `datetime.now()` both
read the same clock value at the moment of the call.
-/

namespace Turbo

/-- The supplier payload dictionary built by `process_single_page`.
Python reads it with `supplier.get(key, '')`, so every field is total
here with `""` standing for an absent value. -/
structure Supplier where
  participant_number : String := ""
  name : String := ""
  bin : String := ""
  iin : String := ""
  rnn : String := ""
  supplier_id : String := ""
  detail_url : String := ""
deriving DecidableEq, Repr

/-- One row of the `suppliers` table (`init_database`).  The
auto-increment primary key is irrelevant to every claim and omitted;
`participant_number` and `supplier_id` carry `UNIQUE` constraints. -/
structure SupplierRow where
  participant_number : String
  name : String
  bin : String
  iin : String
  rnn : String
  supplier_id : String
  detail_url : String
  is_parsed : Bool
  is_failed : Bool
  retry_count : Nat
  created_at : Nat
  updated_at : Nat
deriving DecidableEq, Repr

/-- One row of the `supplier_details` table. -/
structure DetailRow where
  supplier_id : String
  «section» : String
  field_name : String
  field_value : String
  created_at : Nat
deriving DecidableEq, Repr

/-- One row of the append-only `failed_attempts` table.  The
`attempt_time` default column is never read by the program and is not
modelled. -/
structure FailedAttemptRow where
  page_number : Option Nat
  supplier_id : Option String
  error_message : String
  resolved : Bool
deriving DecidableEq, Repr

/-- The three tables created by `init_database`. -/
structure Database where
  suppliers : List SupplierRow
  supplier_details : List DetailRow
  failed_attempts : List FailedAttemptRow
deriving DecidableEq, Repr

/-- The row written by `save_supplier`'s `INSERT OR REPLACE`: the nine
listed columns come from the statement, while `is_failed`, `retry_count`
and `created_at` are absent from the column list and take their schema
defaults (`FALSE`, `0`, `CURRENT_TIMESTAMP`). -/
def supplierRow (s : Supplier) (details : Option (List (String × String))) (now : Nat) :
    SupplierRow :=
  { participant_number := s.participant_number
    name := s.name
    bin := s.bin
    iin := s.iin
    rnn := s.rnn
    supplier_id := s.supplier_id
    detail_url := s.detail_url
    is_parsed := details.isSome
    is_failed := false
    retry_count := 0
    created_at := now
    updated_at := now }

/-- SQLite `INSERT OR REPLACE` on `suppliers`: every existing row that
conflicts with the new row on either `UNIQUE` column
(`participant_number` or `supplier_id`) is deleted, then the new row is
inserted. -/
def insertOrReplaceSupplier (rows : List SupplierRow) (r : SupplierRow) : List SupplierRow :=
  rows.filter
    (fun old => old.participant_number != r.participant_number &&
      old.supplier_id != r.supplier_id) ++ [r]

/-- Python truthiness of the optional `details` dict: `None` and the
empty dict are falsy. -/
def detailsTruthy (details : Option (List (String × String))) : Bool :=
  match details with
  | none => false
  | some l => !l.isEmpty

/-- `TurboParallelParser.save_supplier`: upsert the supplier row, then
— only when `details` is truthy and the payload carries a non-empty
`supplier_id` — delete every detail row of that identifier and insert
the new set. -/
def save_supplier (db : Database) (s : Supplier)
    (details : Option (List (String × String))) (now : Nat) : Database :=
  let suppliers := insertOrReplaceSupplier db.suppliers (supplierRow s details now)
  if detailsTruthy details && (s.supplier_id != "") then
    { db with
      suppliers := suppliers
      supplier_details :=
        db.supplier_details.filter (fun r => r.supplier_id != s.supplier_id)
          ++ (details.getD []).map
            (fun kv => ⟨s.supplier_id, "basic", kv.1, kv.2, now⟩) }
  else
    { db with suppliers := suppliers }

/-- `TurboParallelParser.log_failed_attempt`: append-only insert into
`failed_attempts` (`resolved` takes its schema default `FALSE`). -/
def log_failed_attempt (db : Database) (page : Option Nat) (sid : Option String)
    (error : String) : Database :=
  { db with failed_attempts := db.failed_attempts ++ [⟨page, sid, error, false⟩] }

theorem filter_insertOrReplace (rows : List SupplierRow) (r : SupplierRow)
    (sid : String) (hr : r.supplier_id = sid) :
    (insertOrReplaceSupplier rows r).filter
      (fun x => x.supplier_id == sid) = [r] := by
  unfold insertOrReplaceSupplier
  rw [List.filter_append]
  have h1 : (rows.filter
      (fun old => old.participant_number != r.participant_number &&
        old.supplier_id != r.supplier_id)).filter
      (fun x => x.supplier_id == sid) = [] := by
    rw [List.filter_eq_nil_iff]
    intro a ha
    have h2 := List.of_mem_filter ha
    simp only [Bool.and_eq_true, bne_iff_ne, ne_eq] at h2
    simp only [beq_iff_eq]
    rw [← hr]
    exact h2.2
  rw [h1]
  simp [hr]

theorem suppliers_after_save (db : Database) (s : Supplier)
    (details : Option (List (String × String))) (now : Nat) :
    (save_supplier db s details now).suppliers =
      insertOrReplaceSupplier db.suppliers (supplierRow s details now) := by
  unfold save_supplier
  split <;> rfl

/-- C2: saving the identical payload twice leaves exactly one `suppliers`
row for that `supplier_id`, namely the row written by the later call,
whose `updated_at` is the later call's clock value. -/
theorem save_supplier_upsert_idempotent (db : Database) (s : Supplier)
    (details : Option (List (String × String))) (now1 now2 : Nat) :
    ((save_supplier (save_supplier db s details now1) s details now2).suppliers.filter
        (fun r => r.supplier_id == s.supplier_id)) = [supplierRow s details now2] ∧
      (supplierRow s details now2).updated_at = now2 := by
  constructor
  · rw [suppliers_after_save]
    exact filter_insertOrReplace _ _ _ rfl
  · rfl

def emptyDb : Database := ⟨[], [], []⟩

/-- A stored row whose flag columns differ from the schema defaults,
used to exhibit the reset behaviour of a re-save. -/
def exOldRow : SupplierRow :=
  { participant_number := "p1"
    name := "Old Name"
    bin := "b"
    iin := "i"
    rnn := "r"
    supplier_id := "77"
    detail_url := "/ru/registry/show_supplier/77"
    is_parsed := true
    is_failed := true
    retry_count := 5
    created_at := 3
    updated_at := 3 }

def exDb : Database := ⟨[exOldRow], [], []⟩

def exSupplier : Supplier :=
  { participant_number := "p1"
    name := "New Name"
    supplier_id := "77"
    detail_url := "/ru/registry/show_supplier/77" }

/-- C9: re-saving an existing supplier row does not preserve the columns
absent from the `INSERT OR REPLACE` column list — after the save, the
unique stored row for that `supplier_id` is exactly `supplierRow`, whose
`is_failed`, `retry_count` and `created_at` are the schema defaults
(`FALSE`, `0`, the current clock), regardless of the old row's values. -/
theorem save_supplier_resets_defaults (db : Database) (s : Supplier)
    (details : Option (List (String × String))) (old : SupplierRow) (now : Nat)
    (_hmem : old ∈ db.suppliers) (_hid : old.supplier_id = s.supplier_id) :
    ((save_supplier db s details now).suppliers.filter
        (fun r => r.supplier_id == s.supplier_id)) = [supplierRow s details now] ∧
      (supplierRow s details now).is_failed = false ∧
      (supplierRow s details now).retry_count = 0 ∧
      (supplierRow s details now).created_at = now := by
  refine ⟨?_, rfl, rfl, rfl⟩
  rw [suppliers_after_save]
  exact filter_insertOrReplace _ _ _ rfl

/-- Witness for C9 at a concrete database holding a row with
`is_failed = true`, `retry_count = 5`, `created_at = 3`. -/
theorem save_supplier_resets_defaults_witness :
    ((save_supplier exDb exSupplier none 9).suppliers.filter
        (fun r => r.supplier_id == exSupplier.supplier_id)) =
        [supplierRow exSupplier none 9] ∧
      (supplierRow exSupplier none 9).is_failed = false ∧
      (supplierRow exSupplier none 9).retry_count = 0 ∧
      (supplierRow exSupplier none 9).created_at = 9 :=
  save_supplier_resets_defaults exDb exSupplier none exOldRow 9
    (by simp [exDb]) rfl

theorem filter_ne_then_eq (l : List DetailRow) (sid : String) :
    (l.filter (fun r => r.supplier_id != sid)).filter
      (fun r => r.supplier_id == sid) = [] := by
  rw [List.filter_eq_nil_iff]
  intro a ha
  have h := List.of_mem_filter ha
  simp only [bne_iff_ne, ne_eq] at h
  simpa using h

theorem filter_eq_map (d : List (String × String)) (sid : String) (now : Nat) :
    ((d.map (fun kv => (⟨sid, "basic", kv.1, kv.2, now⟩ : DetailRow))).filter
      (fun r => r.supplier_id == sid)) =
      d.map (fun kv => ⟨sid, "basic", kv.1, kv.2, now⟩) := by
  rw [List.filter_eq_self]
  intro a ha
  rcases List.mem_map.1 ha with ⟨kv, _, rfl⟩
  simp

/-- C4: with a non-empty details map and a non-empty identifier, saving
deletes every existing detail row of the identifier and inserts the new
set, so two successive saves leave exactly the second set; with `None`
or an empty map, the detail table is untouched. -/
theorem save_supplier_detail_replace (db : Database) (s : Supplier)
    (d1 d2 : List (String × String)) (now1 now2 now3 : Nat)
    (hid : s.supplier_id ≠ "") (hd2 : d2 ≠ []) :
    ((save_supplier (save_supplier db s (some d1) now1) s (some d2) now2).supplier_details.filter
        (fun r => r.supplier_id == s.supplier_id)) =
        d2.map (fun kv => ⟨s.supplier_id, "basic", kv.1, kv.2, now2⟩) ∧
      (save_supplier db s none now3).supplier_details = db.supplier_details ∧
      (save_supplier db s (some []) now3).supplier_details = db.supplier_details := by
  refine ⟨?_, rfl, rfl⟩
  have hcond : (detailsTruthy (some d2) && (s.supplier_id != "")) = true := by
    cases d2 with
    | nil => exact absurd rfl hd2
    | cons a l => simp [detailsTruthy, hid]
  simp only [save_supplier, hcond, if_true, Option.getD_some]
  rw [List.filter_append, filter_ne_then_eq, filter_eq_map]
  simp

/-- Witness for C4: details A:1, B:2 then C:3 for identifier X leave
exactly the single detail row C:3. -/
theorem save_supplier_detail_replace_witness :
    ((save_supplier (save_supplier emptyDb { supplier_id := "X" }
        (some [("A", "1"), ("B", "2")]) 1) { supplier_id := "X" }
        (some [("C", "3")]) 2).supplier_details.filter
        (fun r => r.supplier_id == ({ supplier_id := "X" } : Supplier).supplier_id)) =
        [("C", "3")].map
          (fun kv => ⟨({ supplier_id := "X" } : Supplier).supplier_id, "basic",
            kv.1, kv.2, 2⟩) ∧
      (save_supplier emptyDb { supplier_id := "X" } none 3).supplier_details =
        emptyDb.supplier_details ∧
      (save_supplier emptyDb { supplier_id := "X" } (some []) 3).supplier_details =
        emptyDb.supplier_details :=
  save_supplier_detail_replace emptyDb { supplier_id := "X" }
    [("A", "1"), ("B", "2")] [("C", "3")] 1 2 3 (by decide) (by decide)

/-- A body row of the listing table: the texts of its `td` cells, plus
the `href` of the first anchor inside the second cell (`cells[1]`), if
any; an anchor without an `href` attribute reads as the empty string
(`link.get('href', '')`). -/
structure TableRow where
  cells : List String
  nameLink : Option String
deriving DecidableEq, Repr

/-- The rendered listing page as seen by the parsing code: `none` when
`soup.find('table', id='search-result')` yields nothing, `some none`
when the table has no `tbody`, and `some (some rows)` otherwise. -/
abbrev Doc := Option (Option (List TableRow))

/-- The detail-link marker tested with the Python `in` operator. -/
def detailMarker : String := "/show_supplier/"

def markerPieces (href : String) : List String :=
  href.splitOn detailMarker

/-- The identifier/detail-url extraction of lines 473-476: the row
yields a record only when the name-cell anchor exists and its href
contains the marker; the identifier is the trailing piece of the split
(Python `href.split('/show_supplier/')[-1]`). -/
def rowSupplierId (r : TableRow) : Option (String × String) :=
  match r.nameLink with
  | none => none
  | some href =>
    if (markerPieces href).length > 1 then
      some ((markerPieces href).getLastD "", href)
    else
      none

/-- The supplier dictionary built positionally from the first five
cells (lines 464-470) plus the resolved identifier and url. -/
def mkSupplier (cells : List String) (sid url : String) : Supplier :=
  { participant_number := cells.getD 0 ""
    name := cells.getD 1 ""
    bin := cells.getD 2 ""
    iin := cells.getD 3 ""
    rnn := cells.getD 4 ""
    supplier_id := sid
    detail_url := url }

/-- The row loop of `process_single_page` (lines 461-486), threading the
shared seen-set (`processed_suppliers`) and the `duplicates_found`
counter and collecting the accepted records in order.  Rows with fewer
than five cells and rows without a resolvable identifier contribute
nothing; a first sighting inserts the identifier and keeps the record; a
repeat sighting only increments the duplicates counter. -/
def processRows (seen : Finset String) (dups : Nat) :
    List TableRow → List Supplier × Finset String × Nat
  | [] => ([], seen, dups)
  | r :: rs =>
    if 5 ≤ r.cells.length then
      match rowSupplierId r with
      | some (sid, url) =>
        if sid ∈ seen then
          processRows seen (dups + 1) rs
        else
          let rest := processRows (insert sid seen) dups rs
          (mkSupplier r.cells sid url :: rest.1, rest.2)
      | none => processRows seen dups rs
    else
      processRows seen dups rs

/-- The shared runtime state of one parser object: the statistics
counters and sets of `__init__` (all guarded by `stats_lock` in the
source) together with the SQLite database. -/
structure PState where
  processed_pages : Nat
  found_suppliers : Nat
  detailed_suppliers : Nat
  duplicates_found : Nat
  failed_pages : Finset Nat
  failed_suppliers : Finset String
  processed_suppliers : Finset String
  db : Database
deriving DecidableEq

/-- `TurboParallelParser.process_single_page`: the navigation and the
bounded wait are summarised by the `fetch` argument — `Except.error e`
when any exception (timeout, navigation or parsing error) is raised with
text `e`, `Except.ok doc` with the parsed document otherwise.  The
function is total: the `except` branch turns every error into the empty
result plus bookkeeping, so no exception propagates to the caller. -/
def process_single_page (st : PState) (page : Nat) (fetch : Except String Doc) :
    List Supplier × PState :=
  match fetch with
  | .error e =>
    ([], { st with
      failed_pages := insert page st.failed_pages
      db := log_failed_attempt st.db (some page) none e })
  | .ok doc =>
    let rows := match doc with
      | some (some rs) => rs
      | _ => []
    let res := processRows st.processed_suppliers st.duplicates_found rows
    (res.1, { st with processed_suppliers := res.2.1, duplicates_found := res.2.2 })

/-- C5: any navigation/parsing error makes the task return the empty
list, add the page to `failed_pages`, and append one `failed_attempts`
row carrying the page number and the error text; every other piece of
state (counters, seen-set, suppliers table) is untouched, and the
function being total, the exception never reaches the caller. -/
theorem process_single_page_error (st : PState) (page : Nat) (e : String) :
    (process_single_page st page (Except.error e)).1 = [] ∧
      (process_single_page st page (Except.error e)).2.failed_pages =
        insert page st.failed_pages ∧
      (process_single_page st page (Except.error e)).2.db.failed_attempts =
        st.db.failed_attempts ++ [⟨some page, none, e, false⟩] ∧
      (process_single_page st page (Except.error e)).2.processed_pages =
        st.processed_pages ∧
      (process_single_page st page (Except.error e)).2.found_suppliers =
        st.found_suppliers ∧
      (process_single_page st page (Except.error e)).2.duplicates_found =
        st.duplicates_found ∧
      (process_single_page st page (Except.error e)).2.processed_suppliers =
        st.processed_suppliers ∧
      (process_single_page st page (Except.error e)).2.failed_suppliers =
        st.failed_suppliers ∧
      (process_single_page st page (Except.error e)).2.db.suppliers =
        st.db.suppliers ∧
      (process_single_page st page (Except.error e)).2.db.supplier_details =
        st.db.supplier_details :=
  ⟨rfl, rfl, rfl, rfl, rfl, rfl, rfl, rfl, rfl, rfl⟩

/-- C7: a table row with at least five cells whose name-cell anchor does
not yield a resolvable identifier is silently dropped — removing it from
the page changes neither the returned records nor any state (no failure
counter, no `failed_pages`, no `duplicates_found`); in particular a page
holding only such a row returns the empty list and the state verbatim. -/
theorem unresolved_row_dropped (st : PState) (page : Nat) (r : TableRow)
    (rs : List TableRow) (h5 : 5 ≤ r.cells.length)
    (hid : rowSupplierId r = none) :
    process_single_page st page (Except.ok (some (some (r :: rs)))) =
        process_single_page st page (Except.ok (some (some rs))) ∧
      process_single_page st page (Except.ok (some (some [r]))) = ([], st) := by
  have hstep : ∀ seen dups, processRows seen dups (r :: rs) = processRows seen dups rs := by
    intro seen dups
    simp [processRows, h5, hid]
  have hstep1 : ∀ seen dups,
      processRows seen dups [r] = (([] : List Supplier), seen, dups) := by
    intro seen dups
    simp [processRows, h5, hid]
  constructor
  · simp only [process_single_page, hstep]
  · simp only [process_single_page, hstep1]

/-- The empty runtime state set up by `__init__`: all counters zero, all
sets empty, fresh database. -/
def initPState : PState := ⟨0, 0, 0, 0, ∅, ∅, ∅, emptyDb⟩

/-- A five-cell row whose name cell has no anchor at all. -/
def exNoLinkRow : TableRow := ⟨["1", "Name", "b", "i", "r"], none⟩

/-- Witness for C7 at a concrete five-cell row without an anchor. -/
theorem unresolved_row_dropped_witness :
    (process_single_page initPState 4 (Except.ok (some (some [exNoLinkRow]))) =
        process_single_page initPState 4 (Except.ok (some (some []))) ∧
      process_single_page initPState 4 (Except.ok (some (some [exNoLinkRow]))) =
        ([], initPState)) :=
  unresolved_row_dropped initPState 4 exNoLinkRow [] (by decide) rfl

/-- The page list of `run_turbo_parsing`:
`list(range(start_page, end_page + 1))`. -/
def allPages (start_page end_page : Nat) : List Nat :=
  List.range' start_page (end_page + 1 - start_page)

/-- The round loop of `run_turbo_parsing` (lines 703-708) viewed as the
list of page batches it hands to `parallel_round`: while the cursor has
not passed the end of the page list, take the next `n` pages
(`all_pages[idx : idx + len(pool)]`) and advance the cursor by the
actual batch length.  `n` is the live pool size, constant across the
run.  The `0 < n` guard makes the definition total; the Python loop
would spin forever on an empty pool, a situation `run_turbo_parsing`
rules out by aborting first. -/
def schedLoop (pages : List Nat) (n : Nat) (cursor : Nat) : List (List Nat) :=
  if h : cursor < pages.length ∧ 0 < n then
    ((pages.drop cursor).take n) ::
      schedLoop pages n (cursor + ((pages.drop cursor).take n).length)
  else []
termination_by pages.length - cursor
decreasing_by
  have hlen : 0 < ((pages.drop cursor).take n).length := by
    rw [List.length_take, List.length_drop]
    exact lt_min_iff.mpr ⟨h.2, by omega⟩
  omega

def scheduleRounds (pages : List Nat) (n : Nat) : List (List Nat) :=
  schedLoop pages n 0

/-- The task creation of `parallel_round` (lines 604-607): enumerate
`pages[:len(pool)]`, pairing batch index `i` (the session slot
`self.browser_pool[i]`) with its page. -/
def dispatch (pages : List Nat) (poolSize : Nat) : List (Nat × Nat) :=
  (pages.take poolSize).enum

theorem take_append_drop_len {α : Type} (l : List α) (n : Nat) :
    l.take n ++ l.drop ((l.take n).length) = l := by
  rw [List.length_take]
  rcases le_or_lt n l.length with h | h
  · have hm : n ⊓ l.length = n := by omega
    rw [hm, List.take_append_drop]
  · have hm : n ⊓ l.length = l.length := by omega
    rw [hm, List.drop_length, List.take_of_length_le (le_of_lt h), List.append_nil]

theorem schedLoop_join (pages : List Nat) (n : Nat) (hn : 0 < n) :
    ∀ fuel cursor, pages.length - cursor ≤ fuel →
      (schedLoop pages n cursor).flatten = pages.drop cursor := by
  intro fuel
  induction fuel with
  | zero =>
    intro cursor hc
    rw [schedLoop, dif_neg (by rintro ⟨h1, -⟩; omega)]
    rw [List.drop_eq_nil_of_le (by omega)]
    rfl
  | succ f ih =>
    intro cursor hc
    rw [schedLoop]
    by_cases h : cursor < pages.length ∧ 0 < n
    · rw [dif_pos h, List.flatten_cons]
      have hpos : 0 < ((pages.drop cursor).take n).length := by
        rw [List.length_take, List.length_drop]
        omega
      rw [ih (cursor + ((pages.drop cursor).take n).length) (by omega)]
      rw [← List.drop_drop]
      exact take_append_drop_len _ _
    · rw [dif_neg h]
      have hge : pages.length ≤ cursor := by
        rcases Nat.lt_or_ge cursor pages.length with hlt | hge
        · exact absurd ⟨hlt, hn⟩ h
        · exact hge
      rw [List.drop_eq_nil_of_le hge]
      rfl

theorem schedLoop_mem (pages : List Nat) (n : Nat) :
    ∀ fuel cursor, pages.length - cursor ≤ fuel →
      ∀ r ∈ schedLoop pages n cursor, ∃ c, cursor ≤ c ∧ c < pages.length ∧
        r = (pages.drop c).take n := by
  intro fuel
  induction fuel with
  | zero =>
    intro cursor hc r hr
    rw [schedLoop, dif_neg (by rintro ⟨h1, -⟩; omega)] at hr
    exact absurd hr (List.not_mem_nil r)
  | succ f ih =>
    intro cursor hc r hr
    rw [schedLoop] at hr
    by_cases h : cursor < pages.length ∧ 0 < n
    · rw [dif_pos h] at hr
      have hpos : 0 < ((pages.drop cursor).take n).length := by
        rw [List.length_take, List.length_drop]
        omega
      rcases List.mem_cons.1 hr with hr | hr
      · exact ⟨cursor, le_refl cursor, h.1, hr⟩
      · obtain ⟨c, hc1, hc2, hc3⟩ :=
          ih (cursor + ((pages.drop cursor).take n).length) (by omega) r hr
        exact ⟨c, by omega, hc2, hc3⟩
    · rw [dif_neg h] at hr
      exact absurd hr (List.not_mem_nil r)

theorem chain'_range' (s m : Nat) :
    List.Chain' (fun a b => b = a + 1) (List.range' s m) := by
  rw [List.chain'_iff_get]
  intro i h
  rw [List.get_range', List.get_range']
  omega

/-- C3: with a non-empty live pool of size `n`, the rounds of a run over
the inclusive range `[sp, ep]` partition the page list without
reordering, skipping or backfill (their concatenation is the page list,
which ascends by exactly one per step); every round is the next
`min(n, remaining)` consecutive pages from the cursor, is non-empty, and
never holds more pages than the `n` live sessions; dispatching a round
pairs batch index `i` with page `i` of the batch — a strict 1:1
assignment of page `i` to session `i` covering the whole batch. -/
theorem scheduler_rounds_correct (sp ep n : Nat) (hn : 0 < n) :
    (scheduleRounds (allPages sp ep) n).flatten = allPages sp ep ∧
      List.Chain' (fun a b => b = a + 1) (allPages sp ep) ∧
      ∀ r ∈ scheduleRounds (allPages sp ep) n,
        (∃ c, c < (allPages sp ep).length ∧ r = ((allPages sp ep).drop c).take n ∧
          r.length = n ⊓ ((allPages sp ep).length - c)) ∧
        r ≠ [] ∧ r.length ≤ n ∧ dispatch r n = r.enum ∧
        (dispatch r n).length = r.length ∧
        ∀ i : Nat, (dispatch r n)[i]? = r[i]?.map (fun p => (i, p)) := by
  refine ⟨?_, chain'_range' _ _, ?_⟩
  · rw [scheduleRounds,
      schedLoop_join (allPages sp ep) n hn (allPages sp ep).length 0 (by omega)]
    exact List.drop_zero _
  · intro r hr
    obtain ⟨c, _, hc2, hc3⟩ :=
      schedLoop_mem (allPages sp ep) n (allPages sp ep).length 0 (by omega) r hr
    have hlen : r.length = n ⊓ ((allPages sp ep).length - c) := by
      rw [hc3, List.length_take, List.length_drop]
    have hle : r.length ≤ n := by rw [hlen]; omega
    have hne : r ≠ [] := by
      apply List.ne_nil_of_length_pos
      rw [hlen]
      omega
    have hdis : dispatch r n = r.enum := by
      rw [dispatch, List.take_of_length_le hle]
    refine ⟨⟨c, hc2, hc3, hlen⟩, hne, hle, hdis, ?_, ?_⟩
    · rw [hdis, List.enum_length]
    · intro i
      rw [hdis]
      exact List.getElem?_enum r i

/-- Witness for C3 at the range 3..7 with two live sessions. -/
theorem scheduler_rounds_correct_witness :
    (scheduleRounds (allPages 3 7) 2).flatten = allPages 3 7 ∧
      List.Chain' (fun a b => b = a + 1) (allPages 3 7) ∧
      ∀ r ∈ scheduleRounds (allPages 3 7) 2,
        (∃ c, c < (allPages 3 7).length ∧ r = ((allPages 3 7).drop c).take 2 ∧
          r.length = 2 ⊓ ((allPages 3 7).length - c)) ∧
        r ≠ [] ∧ r.length ≤ 2 ∧ dispatch r 2 = r.enum ∧
        (dispatch r 2).length = r.length ∧
        ∀ i : Nat, (dispatch r 2)[i]? = r[i]?.map (fun p => (i, p)) :=
  scheduler_rounds_correct 3 7 2 (by decide)

/-- The whole parser object's mutable state: the shared statistics plus
the resource-owning fields of `__init__` — the live session pool
(`browser_pool`, as abstract slot ids), the scratch profile directories
(`temp_dirs`), the OS chrome processes carrying this run's
`user-data-dir` launch marker, and the `is_shutting_down` flag. -/
structure RunState where
  pst : PState
  browser_pool : List Nat
  temp_dirs : List String
  marked_procs : List Nat
  is_shutting_down : Bool
deriving DecidableEq

/-- `TurboParallelParser.cleanup_all`: a second entry returns at once on
the `is_shutting_down` latch; a first entry quits and clears every
pooled session (`close_all_browsers`, per-session errors swallowed),
reaps every OS process matching the launch marker
(`kill_chrome_processes`), and removes every scratch directory
(`cleanup_temp_dirs`, best-effort).  Each helper's per-item exception
handling makes the net effect total: the lists end empty. -/
def cleanup_all (rs : RunState) : RunState :=
  if rs.is_shutting_down then rs
  else
    { rs with
      is_shutting_down := true
      browser_pool := []
      marked_procs := []
      temp_dirs := [] }

/-- C6: teardown is idempotent — a second invocation returns at once on
the latch, so two invocations end in the same state as one; and from a
live state the first invocation leaves zero sessions, zero scratch
directories and zero matching OS processes, latching the shutdown
flag.  Totality of `cleanup_all` models the source's guarantee that no
invocation raises. -/
theorem cleanup_all_idempotent (rs : RunState)
    (h : rs.is_shutting_down = false) :
    cleanup_all (cleanup_all rs) = cleanup_all rs ∧
      (cleanup_all rs).browser_pool = [] ∧ (cleanup_all rs).temp_dirs = [] ∧
      (cleanup_all rs).marked_procs = [] ∧
      (cleanup_all rs).is_shutting_down = true := by
  refine ⟨?_, ?_, ?_, ?_, ?_⟩ <;> simp [cleanup_all, h]

/-- An example live run state: three pooled sessions, two scratch
directories, two marked processes, not shutting down. -/
def exRun : RunState :=
  ⟨initPState, [0, 1, 2], ["d0", "d1"], [10, 11], false⟩

/-- Witness for C6 at a concrete live state. -/
theorem cleanup_all_idempotent_witness :
    cleanup_all (cleanup_all exRun) = cleanup_all exRun ∧
      (cleanup_all exRun).browser_pool = [] ∧ (cleanup_all exRun).temp_dirs = [] ∧
      (cleanup_all exRun).marked_procs = [] ∧
      (cleanup_all exRun).is_shutting_down = true :=
  cleanup_all_idempotent exRun rfl

/-- `self.save_supplier(supplier)` applied to each record a finished
page task returned (lines 617-618); `details` defaults to `None`. -/
def saveAll (db : Database) (sups : List Supplier) (now : Nat) : Database :=
  sups.foldl (fun d s => save_supplier d s none now) db

/-- The result-collection body of `parallel_round` for one finished page
task (lines 610-622): run the page extraction, persist each returned
record, and bump `processed_pages` and `found_suppliers` under the
lock.  The `as_completed` iteration order is abstracted to batch order;
the claims proved over this model do not depend on it. -/
def roundStep (oracle : Nat → Except String Doc) (now : Nat) (st : PState)
    (task : Nat × Nat) : PState :=
  let res := process_single_page st task.2 (oracle task.2)
  { res.2 with
    db := saveAll res.2.db res.1 now
    processed_pages := res.2.processed_pages + 1
    found_suppliers := res.2.found_suppliers + res.1.length }

/-- `TurboParallelParser.parallel_round`: dispatch
`pages[:len(browser_pool)]` one page per session and fold the
result-collection body over the finished tasks. -/
def parallel_round (oracle : Nat → Except String Doc) (now : Nat) (st : PState)
    (pages : List Nat) (poolSize : Nat) : PState :=
  (dispatch pages poolSize).foldl (roundStep oracle now) st

def run_rounds (oracle : Nat → Except String Doc) (now : Nat) (st : PState)
    (rounds : List (List Nat)) (poolSize : Nat) : PState :=
  rounds.foldl (fun s r => parallel_round oracle now s r poolSize) st

/-- `TurboParallelParser.run_turbo_parsing` after pool initialisation:
if no session survived (`if not self.browser_pool`), return at once —
the `finally` block still routes through `cleanup_all`; otherwise drive
the round loop over the page range and then clean up.  The cooldown
sleeps, the stats monitor thread and the cooperative shutdown flag do
not touch the state modelled here. -/
def run_turbo_parsing (oracle : Nat → Except String Doc) (now : Nat)
    (rs : RunState) (sp ep : Nat) : RunState :=
  if rs.browser_pool.isEmpty then cleanup_all rs
  else
    let final := run_rounds oracle now rs.pst
      (scheduleRounds (allPages sp ep) rs.browser_pool.length)
      rs.browser_pool.length
    cleanup_all { rs with pst := final }

theorem cleanup_all_pst (rs : RunState) : (cleanup_all rs).pst = rs.pst := by
  unfold cleanup_all
  split <;> rfl

/-- C8: with an empty surviving pool the run goes straight to cleanup —
no round is scheduled, no page is dispatched, and the statistics and
database are exactly as before the run. -/
theorem empty_pool_aborts (oracle : Nat → Except String Doc) (now : Nat)
    (rs : RunState) (sp ep : Nat) (h : rs.browser_pool = []) :
    run_turbo_parsing oracle now rs sp ep = cleanup_all rs ∧
      (run_turbo_parsing oracle now rs sp ep).pst = rs.pst := by
  have hb : rs.browser_pool.isEmpty = true := by rw [h]; rfl
  have h1 : run_turbo_parsing oracle now rs sp ep = cleanup_all rs := by
    unfold run_turbo_parsing
    rw [hb]
    rfl
  exact ⟨h1, by rw [h1, cleanup_all_pst]⟩

/-- An environment in which every page fetch times out. -/
def exOracle : Nat → Except String Doc :=
  fun _ => Except.error "TimeoutException"

/-- A run state whose pool initialisation produced zero sessions. -/
def exRunNoPool : RunState := ⟨initPState, [], ["d0"], [10], false⟩

/-- Witness for C8 at a concrete zero-session state. -/
theorem empty_pool_aborts_witness :
    run_turbo_parsing exOracle 5 exRunNoPool 1 9 = cleanup_all exRunNoPool ∧
      (run_turbo_parsing exOracle 5 exRunNoPool 1 9).pst = exRunNoPool.pst :=
  empty_pool_aborts exOracle 5 exRunNoPool 1 9 rfl

theorem foldl_preserve {α β : Type} (f : β → α → β) (g : β → Nat)
    (hf : ∀ b a, g (f b a) = g b) :
    ∀ (l : List α) (b : β), g (l.foldl f b) = g b := by
  intro l
  induction l with
  | nil => intro b; rfl
  | cons a t ih => intro b; rw [List.foldl_cons, ih, hf]

theorem process_single_page_detailed (st : PState) (page : Nat)
    (fetch : Except String Doc) :
    (process_single_page st page fetch).2.detailed_suppliers =
      st.detailed_suppliers := by
  cases fetch <;> rfl

theorem roundStep_detailed (oracle : Nat → Except String Doc) (now : Nat)
    (st : PState) (task : Nat × Nat) :
    (roundStep oracle now st task).detailed_suppliers = st.detailed_suppliers := by
  unfold roundStep
  exact process_single_page_detailed st task.2 (oracle task.2)

theorem run_rounds_detailed (oracle : Nat → Except String Doc) (now : Nat)
    (st : PState) (rounds : List (List Nat)) (poolSize : Nat) :
    (run_rounds oracle now st rounds poolSize).detailed_suppliers =
      st.detailed_suppliers := by
  unfold run_rounds
  apply foldl_preserve
  intro b r
  unfold parallel_round
  apply foldl_preserve
  intro b' t
  exact roundStep_detailed oracle now b' t

/-- C10: `detailed_suppliers` starts at 0 in `__init__` and no operation
reachable from `run_turbo_parsing` — page tasks, per-record saves,
failure logging, cleanup — ever changes it (the detail-extraction pass
is never invoked by the round loop), so it is 0 in the final state and
hence in every snapshot the stats monitor renders. -/
theorem detailed_suppliers_stays_zero (oracle : Nat → Except String Doc)
    (now : Nat) (rs : RunState) (sp ep : Nat)
    (h0 : rs.pst.detailed_suppliers = 0) :
    (run_turbo_parsing oracle now rs sp ep).pst.detailed_suppliers = 0 := by
  unfold run_turbo_parsing
  split
  · rw [cleanup_all_pst]
    exact h0
  · rw [cleanup_all_pst]
    rw [run_rounds_detailed]
    exact h0

/-- Witness for C10: a three-session run over pages 1..9 in the
all-timeouts environment keeps `detailed_suppliers` at 0. -/
theorem detailed_suppliers_stays_zero_witness :
    (run_turbo_parsing exOracle 5 exRun 1 9).pst.detailed_suppliers = 0 :=
  detailed_suppliers_stays_zero exOracle 5 exRun 1 9 rfl

/-- The control state of one thread running the deduplication code of
`process_single_page` (lines 479-486) for one fixed identifier.  The
thread's two CPython-atomic actions are (1) evaluating
`supplier['supplier_id'] not in self.processed_suppliers`, recorded in
`sawAbsent` once `checked`, and (2) either
`self.processed_suppliers.add(...)` plus the local append (`accepted`)
or the lock-protected `self.duplicates_found += 1`; `done` marks the
second action performed.  No lock spans action (1) and action (2): the
source takes `stats_lock` only around the increment. -/
structure ThreadCtl where
  checked : Bool := false
  sawAbsent : Bool := false
  accepted : Bool := false
  done : Bool := false
deriving DecidableEq, Repr

/-- The shared state seen by two concurrent page tasks that extracted
the same identifier in the same round: whether the identifier is in
`processed_suppliers` (`seen`), the `duplicates_found` counter, and the
two threads' control states. -/
structure DedupState where
  seen : Bool := false
  dups : Nat := 0
  t1 : ThreadCtl := {}
  t2 : ThreadCtl := {}
deriving DecidableEq, Repr

/-- One atomic action of one thread: first the membership check, then —
depending on the snapshot the check took — the set insert (accept) or
the locked duplicate count; afterwards the thread is inert. -/
def threadStep (seen : Bool) (dups : Nat) (t : ThreadCtl) : Bool × Nat × ThreadCtl :=
  if !t.checked then
    (seen, dups, { t with checked := true, sawAbsent := !seen })
  else if !t.done then
    if t.sawAbsent then
      (true, dups, { t with accepted := true, done := true })
    else
      (seen, dups + 1, { t with done := true })
  else
    (seen, dups, t)

/-- Interleaving: `true` schedules thread 1 for one atomic action,
`false` thread 2. -/
def dedupStep (s : DedupState) (who : Bool) : DedupState :=
  if who then
    let r := threadStep s.seen s.dups s.t1
    { seen := r.1, dups := r.2.1, t1 := r.2.2, t2 := s.t2 }
  else
    let r := threadStep s.seen s.dups s.t2
    { seen := r.1, dups := r.2.1, t1 := s.t1, t2 := r.2.2 }

/-- Execute a schedule from the initial state: identifier unseen,
`duplicates_found = 0`, both threads about to run the check. -/
def dedupRun (sched : List Bool) : DedupState :=
  sched.foldl dedupStep {}

/-- Counterexample to C1: under the interleaving check1, check2,
insert1, insert2 both concurrent invocations with the same identifier
are accepted and `duplicates_found` stays 0 — the check-and-insert is
not executed atomically, because no lock spans the membership check and
the insert. -/
theorem dedup_check_insert_not_atomic :
    (dedupRun [true, false, true, false]).t1.done = true ∧
      (dedupRun [true, false, true, false]).t2.done = true ∧
      (dedupRun [true, false, true, false]).t1.accepted = true ∧
      (dedupRun [true, false, true, false]).t2.accepted = true ∧
      (dedupRun [true, false, true, false]).dups = 0 := by
  decide

def acceptedCount (s : DedupState) : Nat :=
  (if s.t1.accepted then 1 else 0) + (if s.t2.accepted then 1 else 0)

/-- The inductive invariant of the two-thread deduplication machine. -/
def dedupInv (s : DedupState) : Prop :=
  s.seen = (s.t1.accepted || s.t2.accepted) ∧
    (s.t1.done = true → s.t1.checked = true) ∧
    (s.t2.done = true → s.t2.checked = true) ∧
    (s.t1.checked = true → s.t1.sawAbsent = false → s.seen = true) ∧
    (s.t2.checked = true → s.t2.sawAbsent = false → s.seen = true) ∧
    (s.t1.done = true → s.t1.accepted = false → s.t1.sawAbsent = false) ∧
    (s.t2.done = true → s.t2.accepted = false → s.t2.sawAbsent = false) ∧
    (s.t1.accepted = true → s.t1.done = true) ∧
    (s.t2.accepted = true → s.t2.done = true) ∧
    s.dups = ((if s.t1.done = true ∧ s.t1.accepted = false then 1 else 0) +
      (if s.t2.done = true ∧ s.t2.accepted = false then 1 else 0))

theorem dedupInv_init : dedupInv {} := by
  unfold dedupInv
  decide

theorem dedupInv_step (s : DedupState) (who : Bool) (h : dedupInv s) :
    dedupInv (dedupStep s who) := by
  obtain ⟨h1, h2, h3, h4, h5, h6, h7, h8, h9, h10⟩ := h
  cases who <;>
    simp only [dedupStep, threadStep] <;>
    split_ifs with ha hb hc <;>
    unfold dedupInv <;>
    simp_all

theorem dedupInv_run (sched : List Bool) : dedupInv (dedupRun sched) := by
  unfold dedupRun
  have h : ∀ (l : List Bool) (s : DedupState), dedupInv s →
      dedupInv (l.foldl dedupStep s) := by
    intro l
    induction l with
    | nil => intro s hs; exact hs
    | cons a t ih =>
      intro s hs
      rw [List.foldl_cons]
      exact ih _ (dedupInv_step s a hs)
  exact h sched {} dedupInv_init

/-- C1 corrected: the check-and-insert on the shared seen-set is NOT
atomic (see the counterexample), since the source locks only the
`duplicates_found` increment.  What does hold for every complete
interleaving of the two same-identifier invocations: at least one
invocation is accepted, and accepted invocations plus
`duplicates_found` account for both invocations — exactly one is
accepted precisely in the interleavings where the later check runs
after the earlier insert, as in any serial execution. -/
theorem dedup_concurrent_accounting (sched : List Bool)
    (h1 : (dedupRun sched).t1.done = true)
    (h2 : (dedupRun sched).t2.done = true) :
    ((dedupRun sched).t1.accepted || (dedupRun sched).t2.accepted) = true ∧
      acceptedCount (dedupRun sched) + (dedupRun sched).dups = 2 := by
  obtain ⟨i1, i2, i3, i4, i5, i6, i7, i8, i9, i10⟩ := dedupInv_run sched
  constructor
  · rcases Bool.eq_false_or_eq_true (dedupRun sched).t1.accepted with ha1 | ha1
    · rw [ha1, Bool.true_or]
    · rcases Bool.eq_false_or_eq_true (dedupRun sched).t2.accepted with ha2 | ha2
      · rw [ha1, ha2, Bool.false_or]
      · exfalso
        have hsaw := i6 h1 ha1
        have hseen := i4 (i2 h1) hsaw
        rw [i1, ha1, ha2] at hseen
        exact Bool.false_ne_true hseen
  · unfold acceptedCount
    rw [i10]
    rcases Bool.eq_false_or_eq_true (dedupRun sched).t1.accepted with ha1 | ha1 <;>
      rcases Bool.eq_false_or_eq_true (dedupRun sched).t2.accepted with ha2 | ha2 <;>
      simp [ha1, ha2, h1, h2]

/-- Witness for the C1 accounting theorem at the serial schedule
check1, insert1, check2, count2: one accept, one duplicate. -/
theorem dedup_concurrent_accounting_witness :
    ((dedupRun [true, true, false, false]).t1.accepted ||
        (dedupRun [true, true, false, false]).t2.accepted) = true ∧
      acceptedCount (dedupRun [true, true, false, false]) +
        (dedupRun [true, true, false, false]).dups = 2 :=
  dedup_concurrent_accounting [true, true, false, false] (by decide) (by decide)

end Turbo
